import Mathlib

/-!
Shallow embedding of `pkg/upstream/http.go` of the oauth2-proxy upstream
dispatch layer, together with the parts of the Go standard library
(`net/http/httputil.ReverseProxy`, `net/url.URL`, `net/textproto` header
canonicalisation, `strings.EqualFold`) and of the external `hmacauth`
library that the file's behaviour depends on.  Pure Go functions become
Lean functions; the in-place mutation of `*http.Request` by director
closures becomes explicit `Request → Request` functions; a Go panic
becomes `Except.error`.
-/

set_option autoImplicit false

namespace Oauth2Proxy

/-! ### Strings: ASCII case folding and substring containment -/

/-- ASCII lowercasing of a string, char-list level (kernel-computable). -/
def lowerStr (s : String) : List Char :=
  s.data.map Char.toLower

/-- Model of Go `strings.EqualFold` restricted to ASCII (the only inputs the
claims exercise): case-insensitive equality of the whole strings. -/
def equalFold (s t : String) : Bool :=
  lowerStr s == lowerStr t

/-- `beginsWith hay needle`: `needle` is a prefix of `hay` (on char lists). -/
def beginsWith : List Char → List Char → Bool
  | _, [] => true
  | [], _ :: _ => false
  | a :: as, b :: bs => a == b && beginsWith as bs

/-- `containsSeq hay needle`: `needle` occurs contiguously inside `hay`. -/
def containsSeq : List Char → List Char → Bool
  | [], needle => needle.isEmpty
  | h :: t, needle => beginsWith (h :: t) needle || containsSeq t needle

/-- Substring containment on strings (Go `strings.Contains`). -/
def strContains (s sub : String) : Bool :=
  containsSeq s.data sub.data

/-- Go `strings.HasPrefix` (kernel-computable form). -/
def strStarts (s pre : String) : Bool :=
  beginsWith s.data pre.data

/-- Go `strings.HasSuffix` (kernel-computable form). -/
def strEnds (s suf : String) : Bool :=
  beginsWith s.data.reverse suf.data.reverse

/-- Drop the first `n` characters of a string (Go `s[n:]` on ASCII). -/
def strDrop (s : String) (n : Nat) : String :=
  ⟨s.data.drop n⟩

/-! ### Headers: Go `net/http.Header` with canonical MIME keys

A Go `http.Header` is a map from canonical MIME keys to value lists; the
code under study only ever reads the first value (`Header.Get`) and
replaces whole entries (`Header.Set`), so a single-valued association
list with canonical keys is a faithful model. -/

/-- One step of Go `textproto.CanonicalMIMEHeaderKey`: uppercase the first
letter and every letter following a hyphen, lowercase the rest.  (The Go
function returns non-token keys unchanged; every key appearing in
`http.go` is a valid token, so that branch is never exercised.) -/
def canonList : Bool → List Char → List Char
  | _, [] => []
  | upper, c :: cs =>
    if c = '-' then c :: canonList true cs
    else (if upper then c.toUpper else c.toLower) :: canonList false cs

/-- Go `textproto.CanonicalMIMEHeaderKey` (valid-token case). -/
def canonicalMIMEHeaderKey (s : String) : String :=
  ⟨canonList true s.data⟩

/-- Header map: association list keyed by canonical MIME keys. -/
abbrev Header := List (String × String)

/-- Go `Header.Get`: first value under the canonical key, `""` if absent. -/
def headerGet (h : Header) (k : String) : String :=
  (h.lookup (canonicalMIMEHeaderKey k)).getD ""

/-- Go `Header.Set`: replace the entry under the canonical key. -/
def headerSet (h : Header) (k v : String) : Header :=
  (canonicalMIMEHeaderKey k, v) :: h.filter (fun p => p.1 != canonicalMIMEHeaderKey k)

/-- Go `_, ok := header[key]` presence test (on an already-canonical key,
as the base director uses it for `"User-Agent"`). -/
def headerHas (h : Header) (k : String) : Bool :=
  (h.lookup k).isSome

/-! ### URLs: the fields of Go `net/url.URL` that `http.go` touches -/

/-- Go `net/url.URL`, restricted to the fields read or written by the
dispatch layer.  `opq` models the field `Opaque` (a Lean keyword). -/
structure URL where
  scheme : String := ""
  opq : String := ""
  host : String := ""
  path : String := ""
  rawPath : String := ""
  forceQuery : Bool := false
  rawQuery : String := ""
  deriving Repr, DecidableEq

/-- Hex digit for percent-escaping (uppercase, as in Go `net/url`). -/
def hexDigitUpper (n : Nat) : Char :=
  if n < 10 then Char.ofNat ('0'.toNat + n) else Char.ofNat ('A'.toNat + (n - 10))

/-- Characters Go `net/url` leaves unescaped in `encodePath` mode:
unreserved chars plus the path sub-delims, everything except `?`. -/
def pathNoEscape (c : Char) : Bool :=
  c.isAlphanum || c == '-' || c == '_' || c == '.' || c == '~' ||
  c == '$' || c == '&' || c == '+' || c == ',' || c == '/' ||
  c == ':' || c == ';' || c == '=' || c == '@'

/-- Percent-escape one character in path mode (`%XX`, uppercase hex). -/
def escapePathChar (c : Char) : List Char :=
  if pathNoEscape c then [c]
  else ['%', hexDigitUpper (c.toNat / 16), hexDigitUpper (c.toNat % 16)]

/-- Go `net/url` path escaping (`escape(s, encodePath)`), on ASCII input. -/
def escapePath (s : String) : String :=
  ⟨(s.data.map escapePathChar).flatten⟩

/-- Go `URL.EscapedPath`.  The real function prefers `RawPath` only when it
is a valid encoding of `Path`; the parser maintains that invariant, so the
model simply prefers a non-empty `RawPath`. -/
def URL.EscapedPath (u : URL) : String :=
  if u.rawPath ≠ "" then u.rawPath else escapePath u.path

/-- Go `URL.RequestURI`: the bytes written on the request line by the
transport.  A non-empty `Opaque` short-circuits path re-escaping. -/
def URL.RequestURI (u : URL) : String :=
  let result :=
    if u.opq = "" then
      let r := u.EscapedPath
      if r = "" then "/" else r
    else
      if strStarts u.opq "//" then u.scheme ++ ":" ++ u.opq else u.opq
  if u.forceQuery || u.rawQuery ≠ "" then result ++ "?" ++ u.rawQuery else result

/-! ### Requests, response writers, request scope -/

/-- Modelled from the spec: `middleware.RequestScope` (defined in
`pkg/apis/middleware`, outside the excerpt) is the per-request metadata
object; the dispatch layer touches only its upstream-identifier field. -/
structure RequestScope where
  upstream : String := ""
  deriving Repr, DecidableEq

/-- Go `*http.Request`, restricted to the fields the dispatch layer reads
or writes.  `scope` models the `RequestScope` carried in the request
context (`middleware.GetRequestScope` returns `nil` when absent, which the
model renders as `none`). -/
structure Request where
  method : String := "GET"
  url : URL := {}
  host : String := ""
  requestURI : String := ""
  header : Header := []
  scope : Option RequestScope := none
  deriving Repr, DecidableEq

/-- Go `http.ResponseWriter` together with the response state written
through it: headers, an explicitly written status code, and the body. -/
structure ResponseWriter where
  header : Header := []
  status : Option Nat := none
  body : String := ""
  deriving Repr, DecidableEq

/-! ### Transports: Go `net/http.Transport`, restricted to the fields
`http.go` sets.  Unset fields of a Go composite literal are zero-valued,
which the Lean defaults mirror.  Durations are nanoseconds. -/

/-- Go `net/http.Transport` configuration as built by `http.go`.
`proxyFromEnvironment = true` models `Proxy: http.ProxyFromEnvironment`
(the zero Transport has a nil `Proxy`). -/
structure Transport where
  proxyFromEnvironment : Bool := false
  dialTimeout : Nat := 0
  dialKeepAlive : Nat := 0
  forceAttemptHTTP2 : Bool := false
  maxIdleConns : Nat := 0
  idleConnTimeout : Nat := 0
  tlsHandshakeTimeout : Nat := 0
  expectContinueTimeout : Nat := 0
  insecureSkipVerify : Bool := false
  deriving Repr, DecidableEq

/-- The pooled transport literal of `newReverseProxy` (lines 111–122). -/
def pooledTransport : Transport where
  proxyFromEnvironment := true
  dialTimeout := 0
  dialKeepAlive := 0
  forceAttemptHTTP2 := true
  maxIdleConns := 100
  idleConnTimeout := 90 * 1000000000
  tlsHandshakeTimeout := 10 * 1000000000
  expectContinueTimeout := 1 * 1000000000

/-- The TLS-skip transport literal of `newReverseProxy` (lines 127–129) and
`newWebSocketReverseProxy` (lines 175–177): only `TLSClientConfig` is set,
every other field is the Go zero value. -/
def skipVerifyTransport : Transport where
  insecureSkipVerify := true

/-! ### Per-route configuration: `options.Upstream`, `options.SignatureData` -/

/-- Go `options.Upstream` (defined in `pkg/apis/options`, outside the
excerpt), restricted to the fields `http.go` reads.  Go pointer-to-bool
fields become `Option Bool` (`nil` ↦ `none`). -/
structure Upstream where
  ID : String := ""
  proxyWebSockets : Option Bool := none
  insecureSkipTLSVerify : Bool := false
  passHostHeader : Option Bool := none
  flushInterval : Option Int := none
  deriving Repr, DecidableEq

/-- Modelled from the spec: `options.DefaultUpstreamFlushInterval` (defined
in `pkg/apis/options`, outside the excerpt) — the default flush interval,
"a small positive duration" (one second, in nanoseconds). -/
def DefaultUpstreamFlushInterval : Int := 1000000000

/-- Go `options.SignatureData` (outside the excerpt): a hash-algorithm
identifier and a shared secret key. -/
structure SignatureData where
  hash : Nat := 0
  key : String := ""
  deriving Repr, DecidableEq

/-! ### The hmacauth signing library (external collaborator)

`hmacauth.NewHmacAuth(hash, key, SignatureHeader, SignatureHeaders)`
returns a signer whose `SignRequest` computes a MAC over the request
method, the values of the listed headers (absent ⇒ empty contribution)
and the URL path, and sets the signature header to it.  The MAC itself is
modelled as an abstract deterministic function of the hash identifier,
the key and the signed string. -/

/-- `SignatureHeader` (line 19): the header receiving the GAP signature. -/
def SignatureHeader : String := "GAP-Signature"

/-- `SignatureHeaders` (lines 27–39): the headers signed by the hmac
algorithm, in order. -/
def SignatureHeaders : List String :=
  [ "Content-Length", "Content-Md5", "Content-Type", "Date",
    "Authorization", "X-Forwarded-User", "X-Forwarded-Email",
    "X-Forwarded-Preferred-User", "X-Forwarded-Access-Token",
    "Cookie", "Gap-Auth" ]

/-- The signer built by `hmacauth.NewHmacAuth` for this file's fixed
header name and header list. -/
structure HmacAuth where
  hash : Nat
  key : String
  deriving Repr, DecidableEq

/-- The string hmacauth signs: method, then each listed header value,
then the path (newline-separated).  Absent headers contribute `""`. -/
def stringToSign (req : Request) : String :=
  req.method ++ "\n" ++
    String.join (SignatureHeaders.map (fun h => headerGet req.header h ++ "\n")) ++
    req.url.path

/-- The MAC value, as an abstract deterministic function of the algorithm,
the key and the signed string. -/
def requestSignature (auth : HmacAuth) (req : Request) : String :=
  toString auth.hash ++ ":" ++ auth.key ++ ":" ++ stringToSign req

/-- `hmacauth.SignRequest`: compute the signature and set the signature
header on the request. -/
def signRequest (auth : HmacAuth) (req : Request) : Request :=
  { req with header := headerSet req.header SignatureHeader (requestSignature auth req) }

/-! ### Go `httputil.ReverseProxy` and its single-host director -/

/-- A Go `ProxyErrorHandler` (`func(http.ResponseWriter, *http.Request,
error)`): state-passing over the response writer, the error as a string. -/
abbrev ErrorHandler := ResponseWriter → Request → String → ResponseWriter

/-- Go `httputil.ReverseProxy`, restricted to the fields `http.go`
configures.  `transport = none` models a nil `Transport` (stdlib default);
`errorHandler = none` models a nil `ErrorHandler` (stdlib default). -/
structure ReverseProxy where
  director : Request → Request
  flushInterval : Int := 0
  transport : Option Transport := none
  errorHandler : Option ErrorHandler := none

/-- Go `httputil.singleJoiningSlash`. -/
def singleJoiningSlash (a b : String) : String :=
  if strEnds a "/" && strStarts b "/" then a ++ strDrop b 1
  else if !strEnds a "/" && !strStarts b "/" then a ++ "/" ++ b
  else a ++ b

/-- Go `httputil.joinURLPath`: returns the joined `(Path, RawPath)`. -/
def joinURLPath (a b : URL) : String × String :=
  if a.rawPath = "" && b.rawPath = "" then
    (singleJoiningSlash a.path b.path, "")
  else
    let apath := a.EscapedPath
    let bpath := b.EscapedPath
    if strEnds apath "/" && strStarts bpath "/" then
      (a.path ++ strDrop b.path 1, apath ++ strDrop bpath 1)
    else if !strEnds apath "/" && !strStarts bpath "/" then
      (a.path ++ "/" ++ b.path, apath ++ "/" ++ bpath)
    else
      (a.path ++ b.path, apath ++ bpath)

/-- The director installed by Go `httputil.NewSingleHostReverseProxy`:
rewrite scheme, host and joined path to the target, merge the target's
query, and default the `User-Agent` header. -/
def baseDirector (target : URL) (req : Request) : Request :=
  let targetQuery := target.rawQuery
  let u := req.url
  let joined := joinURLPath target u
  let u := { u with
    scheme := target.scheme
    host := target.host
    path := joined.1
    rawPath := joined.2 }
  let u := { u with
    rawQuery :=
      if targetQuery = "" || u.rawQuery = "" then targetQuery ++ u.rawQuery
      else targetQuery ++ "&" ++ u.rawQuery }
  let req := { req with url := u }
  if headerHas req.header "User-Agent" then req
  else { req with header := headerSet req.header "User-Agent" "" }

/-- Go `httputil.NewSingleHostReverseProxy target`. -/
def NewSingleHostReverseProxy (target : URL) : ReverseProxy where
  director := baseDirector target

/-! ### The repository's proxy construction (`http.go`) -/

/-- The rewrite added by `setProxyDirector` (lines 161–167): substitute the
raw request-line target for the parsed URL via `Opaque` and clear the
parsed query fields. -/
def escapeDirectorStep (req : Request) : Request :=
  { req with url := { req.url with
      opq := req.requestURI
      rawQuery := ""
      forceQuery := false } }

/-- `setProxyDirector` (lines 159–168): wrap the proxy's director so that
request URIs are not unescaped when proxying. -/
def setProxyDirector (proxy : ReverseProxy) : ReverseProxy :=
  let director := proxy.director
  { proxy with director := fun req => escapeDirectorStep (director req) }

/-- The rewrite added by `setProxyUpstreamHostHeader` (line 153):
`req.Host = target.Host`. -/
def upstreamHostHeaderStep (target : URL) (req : Request) : Request :=
  { req with host := target.host }

/-- `setProxyUpstreamHostHeader` (lines 149–155): wrap the proxy's director
so upstream requests receive a host header matching the target URL. -/
def setProxyUpstreamHostHeader (proxy : ReverseProxy) (target : URL) : ReverseProxy :=
  let director := proxy.director
  { proxy with director := fun req => upstreamHostHeaderStep target (director req) }

/-- The condition on line 135: `upstream.PassHostHeader != nil &&
!*upstream.PassHostHeader`. -/
def passHostHeaderDisabled (upstream : Upstream) : Bool :=
  match upstream.passHostHeader with
  | some b => !b
  | none => false

/-- `newReverseProxy` (lines 101–145): build the plain reverse proxy for
one upstream: flush interval, transport (fully replaced when TLS
verification is skipped), escaped-URI director, optional host-header
override, optional error handler. -/
def newReverseProxy (target : URL) (upstream : Upstream)
    (errorHandler : Option ErrorHandler) : ReverseProxy :=
  let proxy := NewSingleHostReverseProxy target
  let proxy := { proxy with
    flushInterval :=
      match upstream.flushInterval with
      | some d => d
      | none => DefaultUpstreamFlushInterval }
  let proxy := { proxy with transport := some pooledTransport }
  let proxy :=
    if upstream.insecureSkipTLSVerify then
      { proxy with transport := some skipVerifyTransport }
    else proxy
  let proxy := setProxyDirector proxy
  let proxy :=
    if passHostHeaderDisabled upstream then setProxyUpstreamHostHeader proxy target
    else proxy
  match errorHandler with
  | some h => { proxy with errorHandler := some h }
  | none => proxy

/-- `newWebSocketReverseProxy` (lines 171–180). -/
def newWebSocketReverseProxy (u : URL) (skipTLSVerify : Bool) : ReverseProxy :=
  let wsProxy := NewSingleHostReverseProxy u
  if skipTLSVerify then { wsProxy with transport := some skipVerifyTransport }
  else wsProxy

/-- `httpUpstreamProxy` (lines 70–75): a single HTTP(S) upstream proxy.
`wsHandler = none` models a nil `wsHandler`; `auth = none` a nil
`hmacauth.HmacAuth`. -/
structure httpUpstreamProxy where
  upstream : String
  handler : ReverseProxy
  wsHandler : Option ReverseProxy
  auth : Option HmacAuth

/-- `newHTTPUpstreamProxy` (lines 43–67). -/
def newHTTPUpstreamProxy (upstream : Upstream) (u : URL)
    (sigData : Option SignatureData) (errorHandler : Option ErrorHandler) :
    httpUpstreamProxy :=
  let u := { u with path := "" }
  let proxy := newReverseProxy u upstream errorHandler
  let wsProxy : Option ReverseProxy :=
    if upstream.proxyWebSockets = none || upstream.proxyWebSockets = some true then
      some (newWebSocketReverseProxy u upstream.insecureSkipTLSVerify)
    else none
  let auth : Option HmacAuth :=
    match sigData with
    | some sd => some { hash := sd.hash, key := sd.key }
    | none => none
  { upstream := upstream.ID
    handler := proxy
    wsHandler := wsProxy
    auth := auth }

/-! ### The dispatcher's `ServeHTTP` (lines 79–95)

The method's side effects are recorded as an ordered event trace; the
nil-scope panic becomes `Except.error`. -/

/-- One observable step of `httpUpstreamProxy.ServeHTTP`, in order. -/
inductive Event where
  | setScope (upstreamID : String)
  | setGapAuth (v : String)
  | signed
  | forwardWS
  | forwardPlain
  deriving Repr, DecidableEq

/-- Whether an event hands the request to a forwarding handler. -/
def Event.isForward : Event → Bool
  | .forwardWS => true
  | .forwardPlain => true
  | _ => false

/-- Which handler `ServeHTTP` delegated to. -/
inductive Route where
  | ws
  | plain
  deriving Repr, DecidableEq

/-- The outcome of one `ServeHTTP` call: the ordered event trace, the
request as handed to the chosen handler, and which handler it was. -/
structure ServeResult where
  events : List Event
  finalReq : Request
  route : Route
  deriving Repr, DecidableEq

/-- `httpUpstreamProxy.ServeHTTP` (lines 79–95): stamp the request scope
(panicking — `Except.error` — when it is absent), overwrite `GAP-Auth`
from the response writer and sign when auth is configured, then route on
the `Connection`/`Upgrade` headers. -/
def httpUpstreamProxy.ServeHTTP (h : httpUpstreamProxy)
    (rw : ResponseWriter) (req : Request) : Except String ServeResult :=
  match req.scope with
  | none => .error "runtime error: invalid memory address or nil pointer dereference"
  | some scope =>
    let scope := { scope with upstream := h.upstream }
    let req := { req with scope := some scope }
    let (req, events) :=
      match h.auth with
      | some auth =>
        let gapAuth := headerGet rw.header "GAP-Auth"
        let req := { req with header := headerSet req.header "GAP-Auth" gapAuth }
        let req := signRequest auth req
        (req, [Event.setScope h.upstream, Event.setGapAuth gapAuth, Event.signed])
      | none => (req, [Event.setScope h.upstream])
    if h.wsHandler.isSome &&
        equalFold (headerGet req.header "Connection") "upgrade" &&
        headerGet req.header "Upgrade" == "websocket" then
      .ok { events := events ++ [Event.forwardWS], finalReq := req, route := .ws }
    else
      .ok { events := events ++ [Event.forwardPlain], finalReq := req, route := .plain }

/-! ### The stdlib error path of `ReverseProxy.ServeHTTP`

When the transport's `RoundTrip` fails, Go's `ReverseProxy.ServeHTTP`
calls `p.getErrorHandler()(rw, outreq, err)` once and returns; the default
handler logs and writes `StatusBadGateway` with no body. -/

/-- Go `ReverseProxy.defaultErrorHandler`: write a 502 status, no body. -/
def defaultErrorHandler : ErrorHandler :=
  fun rw _ _ => { rw with status := some 502 }

/-- Go `ReverseProxy.getErrorHandler`. -/
def ReverseProxy.getErrorHandler (p : ReverseProxy) : ErrorHandler :=
  p.errorHandler.getD defaultErrorHandler

/-- The stdlib `ReverseProxy.ServeHTTP` error path on a connection-level
failure: the chosen error handler runs exactly once (the second component
counts its invocations) and its output is the response. -/
def ReverseProxy.serveConnFailure (p : ReverseProxy) (rw : ResponseWriter)
    (req : Request) (err : String) : ResponseWriter × Nat :=
  (p.getErrorHandler rw req err, 1)

/-! ### Header lemmas -/

theorem lookup_filter_ne (ck k : String) (hne : k ≠ ck) (l : Header) :
    (l.filter (fun p => p.1 != ck)).lookup k = l.lookup k := by
  induction l with
  | nil => rfl
  | cons p t ih =>
    by_cases hp : p.1 = ck
    · have hfalse : (p.1 != ck) = false := by simp [hp]
      have hk : (k == p.1) = false := by
        simp only [beq_eq_false_iff_ne, ne_eq]
        exact fun hkp => hne (hkp.trans hp)
      simp [List.filter_cons, hfalse, List.lookup, hk, ih]
    · have htrue : (p.1 != ck) = true := by simp [hp]
      rcases hpk : k == p.1 with _ | _
      · simp [List.filter_cons, htrue, List.lookup, hpk, ih]
      · simp [List.filter_cons, htrue, List.lookup, hpk]

/-- Setting one header leaves every other (canonically distinct) header
unchanged. -/
theorem headerGet_headerSet_ne (h : Header) (k k' v : String)
    (hne : canonicalMIMEHeaderKey k' ≠ canonicalMIMEHeaderKey k) :
    headerGet (headerSet h k v) k' = headerGet h k' := by
  have hk : (canonicalMIMEHeaderKey k' == canonicalMIMEHeaderKey k) = false := by
    simpa using hne
  simp [headerGet, headerSet, List.lookup, hk, lookup_filter_ne _ _ hne]

/-- Reading back the header just set. -/
theorem headerGet_headerSet_eq (h : Header) (k v : String) :
    headerGet (headerSet h k v) k = v := by
  simp [headerGet, headerSet, List.lookup]

/-- Setting the same header twice keeps only the second value. -/
theorem headerSet_headerSet (h : Header) (k v w : String) :
    headerSet (headerSet h k v) k w = headerSet h k w := by
  simp [headerSet, List.filter_cons, List.filter_filter]

/-- Signing sets only the `Gap-Signature` header. -/
theorem headerGet_signRequest (auth : HmacAuth) (R : Request) (k : String)
    (h2 : canonicalMIMEHeaderKey k ≠ canonicalMIMEHeaderKey SignatureHeader) :
    headerGet (signRequest auth R).header k = headerGet R.header k :=
  headerGet_headerSet_ne _ _ _ _ h2

theorem headerGet_sign_Connection (auth : HmacAuth) (R : Request) :
    headerGet (signRequest auth R).header "Connection" =
      headerGet R.header "Connection" :=
  headerGet_signRequest auth R _ (by decide)

theorem headerGet_sign_Upgrade (auth : HmacAuth) (R : Request) :
    headerGet (signRequest auth R).header "Upgrade" =
      headerGet R.header "Upgrade" :=
  headerGet_signRequest auth R _ (by decide)

theorem headerGet_setGap_Connection (h : Header) (v : String) :
    headerGet (headerSet h "GAP-Auth" v) "Connection" = headerGet h "Connection" :=
  headerGet_headerSet_ne h _ _ v (by decide)

theorem headerGet_setGap_Upgrade (h : Header) (v : String) :
    headerGet (headerSet h "GAP-Auth" v) "Upgrade" = headerGet h "Upgrade" :=
  headerGet_headerSet_ne h _ _ v (by decide)

/-- The routing condition of `ServeHTTP` line 90, over the client's
request headers. -/
def wsRouteCond (h : httpUpstreamProxy) (req : Request) : Bool :=
  h.wsHandler.isSome &&
    equalFold (headerGet req.header "Connection") "upgrade" &&
    (headerGet req.header "Upgrade" == "websocket")

/-- Full characterisation of `ServeHTTP` on a request carrying a scope:
the event trace, the forwarded request and the chosen route, with the
routing condition expressed over the client's original headers (the
`GAP-Auth`/`Gap-Signature` mutations do not touch `Connection`/`Upgrade`). -/
theorem ServeHTTP_ok (h : httpUpstreamProxy) (rw : ResponseWriter)
    (req : Request) (s : RequestScope) (hscope : req.scope = some s) :
    h.ServeHTTP rw req = .ok
      { events :=
          (match h.auth with
            | some _ =>
              [Event.setScope h.upstream,
               Event.setGapAuth (headerGet rw.header "GAP-Auth"), Event.signed]
            | none => [Event.setScope h.upstream]) ++
          [if wsRouteCond h req then Event.forwardWS else Event.forwardPlain]
        finalReq :=
          (match h.auth with
            | some auth =>
              signRequest auth { req with
                scope := some { upstream := h.upstream }
                header := headerSet req.header "GAP-Auth"
                  (headerGet rw.header "GAP-Auth") }
            | none => { req with scope := some { upstream := h.upstream } })
        route := if wsRouteCond h req then Route.ws else Route.plain } := by
  unfold httpUpstreamProxy.ServeHTTP wsRouteCond
  rw [hscope]
  cases hauth : h.auth with
  | none =>
    dsimp only
    by_cases hC : (h.wsHandler.isSome &&
        equalFold (headerGet req.header "Connection") "upgrade" &&
        (headerGet req.header "Upgrade" == "websocket")) = true
    · rw [if_pos hC, if_pos hC, if_pos hC]
    · rw [if_neg hC, if_neg hC, if_neg hC]
  | some auth =>
    dsimp only
    rw [headerGet_sign_Connection, headerGet_sign_Upgrade]
    dsimp only
    rw [headerGet_setGap_Connection, headerGet_setGap_Upgrade]
    by_cases hC : (h.wsHandler.isSome &&
        equalFold (headerGet req.header "Connection") "upgrade" &&
        (headerGet req.header "Upgrade" == "websocket")) = true
    · rw [if_pos hC, if_pos hC, if_pos hC]
    · rw [if_neg hC, if_neg hC, if_neg hC]

/-! ### Claim C1: routing between the WebSocket and Plain proxies -/

/-- Split a character list on commas (list-level `strings.Split s ","`). -/
def splitOnComma : List Char → List (List Char)
  | [] => [[]]
  | c :: t =>
    if c = ',' then [] :: splitOnComma t
    else
      match splitOnComma t with
      | [] => [[c]]
      | h :: rest => (c :: h) :: rest

/-- Trim leading/trailing ASCII whitespace from a character list. -/
def trimChars (cs : List Char) : List Char :=
  ((cs.dropWhile Char.isWhitespace).reverse.dropWhile Char.isWhitespace).reverse

/-- Formalised from the claim's words, for comparison with the code: the
`Connection` header "case-insensitively contains the token upgrade", i.e.
some comma-separated element, whitespace-trimmed, is `upgrade` up to case. -/
def connectionContainsUpgradeToken (conn : String) : Bool :=
  (splitOnComma conn.data).any
    (fun t => (trimChars t).map Char.toLower == "upgrade".data)

/-- A sample upstream configuration (all flags at their defaults). -/
def sampleUpstream : Upstream := { ID := "u1" }

/-- A sample upstream target. -/
def sampleTarget : URL := { scheme := "http", host := "backend.local" }

/-- The sample dispatcher: default flags, no signing, no error handler. -/
def sampleProxy : httpUpstreamProxy :=
  newHTTPUpstreamProxy sampleUpstream sampleTarget none none

/-- A request whose `Connection` header contains the token `upgrade`
without being equal to it, with a websocket `Upgrade` header. -/
def tokenUpgradeReq : Request :=
  { requestURI := "/"
    header := [("Connection", "keep-alive, Upgrade"), ("Upgrade", "websocket")]
    scope := some {} }

/-- C1, counterexample: `Connection: keep-alive, Upgrade` case-insensitively
contains the token `upgrade` and `Upgrade: websocket` holds, and the
dispatcher's WebSocket handler exists, yet the request is routed to the
Plain Proxy — the code compares the whole `Connection` value with
`strings.EqualFold`, it does not search for a token. -/
theorem connection_token_routed_plain :
    connectionContainsUpgradeToken (headerGet tokenUpgradeReq.header "Connection") = true ∧
    headerGet tokenUpgradeReq.header "Upgrade" = "websocket" ∧
    sampleProxy.wsHandler.isSome = true ∧
    (sampleProxy.ServeHTTP {} tokenUpgradeReq).toOption.map ServeResult.route =
      some Route.plain := by
  refine ⟨by decide, by decide, by decide, by decide⟩

/-- C1, amended: for a dispatcher whose WebSocket handler exists, a request
is routed to the WebSocket Proxy exactly when its whole `Connection` header
case-insensitively *equals* `upgrade` (`strings.EqualFold`, not token
containment) and its `Upgrade` header equals the literal `websocket`;
in particular `Connection: Upgrade` with `Upgrade: websocket` goes to the
WebSocket Proxy and `Connection: close` goes to the Plain Proxy. -/
theorem routing_equalFold (h : httpUpstreamProxy) (rw : ResponseWriter)
    (req : Request) (r : ServeResult) (s : RequestScope)
    (hscope : req.scope = some s) (hws : h.wsHandler.isSome = true)
    (hok : h.ServeHTTP rw req = .ok r) :
    r.route = Route.ws ↔
      (equalFold (headerGet req.header "Connection") "upgrade" = true ∧
       headerGet req.header "Upgrade" = "websocket") := by
  rw [ServeHTTP_ok h rw req s hscope] at hok
  cases hok
  simp only [wsRouteCond, hws, Bool.true_and]
  by_cases hC : (equalFold (headerGet req.header "Connection") "upgrade" &&
      (headerGet req.header "Upgrade" == "websocket")) = true
  · simp only [Bool.and_eq_true, beq_iff_eq] at hC
    simp [hC]
  · simp only [Bool.and_eq_true, beq_iff_eq] at hC
    have : ¬(equalFold (headerGet req.header "Connection") "upgrade" = true ∧
        headerGet req.header "Upgrade" = "websocket") := hC
    simp only [Bool.and_eq_true, beq_iff_eq]
    constructor
    · intro hr
      by_cases h1 : equalFold (headerGet req.header "Connection") "upgrade" = true
      · by_cases h2 : headerGet req.header "Upgrade" = "websocket"
        · exact ⟨h1, h2⟩
        · simp [h1, h2] at hr
      · simp [h1] at hr
    · intro hc; exact absurd hc this

/-- A request carrying exactly `Connection: Upgrade`, `Upgrade: websocket`. -/
def plainUpgradeReq : Request :=
  { requestURI := "/"
    header := [("Connection", "Upgrade"), ("Upgrade", "websocket")]
    scope := some {} }

/-- Witness for `routing_equalFold` at a concrete dispatcher and request:
the hypotheses hold and the routing equivalence is realised (here the
request goes to the WebSocket Proxy). -/
theorem routing_equalFold_witness :
    ∃ r, sampleProxy.ServeHTTP {} plainUpgradeReq = .ok r ∧
      (r.route = Route.ws ↔
        (equalFold (headerGet plainUpgradeReq.header "Connection") "upgrade" = true ∧
         headerGet plainUpgradeReq.header "Upgrade" = "websocket")) :=
  ⟨_, ServeHTTP_ok sampleProxy {} plainUpgradeReq {} rfl,
    routing_equalFold sampleProxy {} plainUpgradeReq _ {} rfl (by decide)
      (ServeHTTP_ok sampleProxy {} plainUpgradeReq {} rfl)⟩

/-! ### The composed director of `newReverseProxy` -/

/-- The base director leaves the raw request-line target untouched. -/
theorem baseDirector_requestURI (target : URL) (req : Request) :
    (baseDirector target req).requestURI = req.requestURI := by
  unfold baseDirector
  dsimp only
  split <;> rfl

/-- The base director leaves the request's `Host` field untouched (it only
rewrites `req.URL`, not `req.Host`). -/
theorem baseDirector_host (target : URL) (req : Request) :
    (baseDirector target req).host = req.host := by
  unfold baseDirector
  dsimp only
  split <;> rfl

/-- Shared characterisation: the director installed by `newReverseProxy`
is the base single-host rewrite, then the URL-escaping preservation step,
then — exactly when `PassHostHeader` is explicitly disabled — the
host-header override. -/
theorem newReverseProxy_director_eq (target : URL) (upstream : Upstream)
    (e : Option ErrorHandler) :
    (newReverseProxy target upstream e).director = fun req =>
      if passHostHeaderDisabled upstream then
        upstreamHostHeaderStep target (escapeDirectorStep (baseDirector target req))
      else escapeDirectorStep (baseDirector target req) := by
  unfold newReverseProxy setProxyDirector setProxyUpstreamHostHeader
    NewSingleHostReverseProxy
  cases e <;> cases hski : upstream.insecureSkipTLSVerify <;>
    cases hph : passHostHeaderDisabled upstream <;>
    simp [hph]

/-! ### Claim C2: encoded slashes are forwarded exactly as received -/

/-- A string containing `%2F` is nonempty. -/
theorem strContains_p2f_ne_empty (s : String) (h : strContains s "%2F" = true) :
    s ≠ "" := by
  intro he
  rw [he] at h
  exact absurd h (by decide)

theorem containsSeq_append_right (xs ys n : List Char)
    (h : containsSeq ys n = true) : containsSeq (xs ++ ys) n = true := by
  induction xs with
  | nil => exact h
  | cons x t ih =>
    show (beginsWith (x :: (t ++ ys)) n || containsSeq (t ++ ys) n) = true
    rw [ih]
    exact Bool.or_true _

/-- `URL.RequestURI` on a URL with a non-empty opaque target and no query
fields: the opaque bytes, scheme-prefixed only for a `//`-target. -/
theorem RequestURI_of_opq (u : URL) (hne : u.opq ≠ "") (hq : u.rawQuery = "")
    (hf : u.forceQuery = false) :
    u.RequestURI = if strStarts u.opq "//" then u.scheme ++ ":" ++ u.opq else u.opq := by
  unfold URL.RequestURI
  rw [hq, hf]
  simp [hne]

/-- C2: for every request whose raw request-line target contains a
percent-encoded slash, the composed director substitutes the raw target
for the parsed URL (`Opaque := RequestURI`) and clears the parsed query
fields, so the request-line bytes sent upstream are exactly the raw
target (scheme-prefixed only in the degenerate `//`-target case) and the
percent-encoded slash is never decoded. -/
theorem director_preserves_encoded_slash (target : URL) (upstream : Upstream)
    (e : Option ErrorHandler) (req : Request)
    (henc : strContains req.requestURI "%2F" = true) :
    ((newReverseProxy target upstream e).director req).url.opq = req.requestURI ∧
    ((newReverseProxy target upstream e).director req).url.rawQuery = "" ∧
    ((newReverseProxy target upstream e).director req).url.forceQuery = false ∧
    (strStarts req.requestURI "//" = false →
      ((newReverseProxy target upstream e).director req).url.RequestURI =
        req.requestURI) ∧
    strContains ((newReverseProxy target upstream e).director req).url.RequestURI
      "%2F" = true := by
  rw [newReverseProxy_director_eq]
  have hurl :
      (if passHostHeaderDisabled upstream then
        upstreamHostHeaderStep target (escapeDirectorStep (baseDirector target req))
      else escapeDirectorStep (baseDirector target req)).url =
      (escapeDirectorStep (baseDirector target req)).url := by
    cases passHostHeaderDisabled upstream <;> rfl
  dsimp only
  rw [hurl]
  have hopq : (escapeDirectorStep (baseDirector target req)).url.opq =
      req.requestURI := by
    show (baseDirector target req).requestURI = req.requestURI
    exact baseDirector_requestURI target req
  have hrq : (escapeDirectorStep (baseDirector target req)).url.rawQuery = "" := rfl
  have hfq : (escapeDirectorStep (baseDirector target req)).url.forceQuery = false := rfl
  have hne : (escapeDirectorStep (baseDirector target req)).url.opq ≠ "" := by
    rw [hopq]; exact strContains_p2f_ne_empty _ henc
  have hru := RequestURI_of_opq _ hne hrq hfq
  rw [hopq] at hru
  refine ⟨hopq, hrq, hfq, ?_, ?_⟩
  · intro hns
    rw [hru, if_neg (by rw [hns]; exact Bool.false_ne_true)]
  · rw [hru]
    by_cases hs : strStarts req.requestURI "//" = true
    · rw [if_pos hs]
      show containsSeq (((escapeDirectorStep (baseDirector target req)).url.scheme
          ++ ":").data ++ req.requestURI.data) _ = true
      exact containsSeq_append_right _ _ _ henc
    · rw [if_neg hs]
      exact henc

/-- A concrete request whose target carries an encoded slash. -/
def encodedSlashReq : Request :=
  { requestURI := "/a%2Fb?x=1"
    url := { path := "/a/b", rawQuery := "x=1" }
    host := "client.example"
    scope := some {} }

/-- Witness for `director_preserves_encoded_slash`: the spec's own example
`GET /a%2Fb?x=1` against target `http://backend.local`. -/
theorem director_preserves_encoded_slash_witness :
    strContains encodedSlashReq.requestURI "%2F" = true ∧
    ((newReverseProxy sampleTarget sampleUpstream none).director
        encodedSlashReq).url.RequestURI = "/a%2Fb?x=1" := by
  refine ⟨by decide, ?_⟩
  have h := director_preserves_encoded_slash sampleTarget sampleUpstream none
    encodedSlashReq (by decide)
  have := h.2.2.2.1 (by decide)
  rw [this]
  rfl

/-! ### Claim C3: the pass-host-header flag -/

/-- C3: with `PassHostHeader` explicitly disabled the director overwrites
the outbound `Host` with the configured target's host, regardless of the
client's original `Host`; with the flag enabled or unset the client's
`Host` passes through unchanged. -/
theorem passHostHeader_controls_host (target : URL) (upstream : Upstream)
    (e : Option ErrorHandler) (req : Request) :
    (upstream.passHostHeader = some false →
      ((newReverseProxy target upstream e).director req).host = target.host) ∧
    ((upstream.passHostHeader = none ∨ upstream.passHostHeader = some true) →
      ((newReverseProxy target upstream e).director req).host = req.host) := by
  rw [newReverseProxy_director_eq]
  dsimp only
  constructor
  · intro hph
    have hd : passHostHeaderDisabled upstream = true := by
      unfold passHostHeaderDisabled
      rw [hph]
      rfl
    rw [if_pos hd]
    rfl
  · intro hph
    have hd : passHostHeaderDisabled upstream = false := by
      rcases hph with hph | hph <;> simp [passHostHeaderDisabled, hph]
    rw [if_neg (by rw [hd]; exact Bool.false_ne_true)]
    show (baseDirector target req).host = req.host
    exact baseDirector_host target req

/-- Witness for `passHostHeader_controls_host`: disabling the flag forces
`Host: backend.local` (the spec's example), and leaving it unset keeps the
client's `Host: client.example`. -/
theorem passHostHeader_controls_host_witness :
    ((newReverseProxy sampleTarget { ID := "u1", passHostHeader := some false }
        none).director encodedSlashReq).host = "backend.local" ∧
    ((newReverseProxy sampleTarget sampleUpstream none).director
        encodedSlashReq).host = "client.example" := by
  constructor
  · exact (passHostHeader_controls_host sampleTarget
      { ID := "u1", passHostHeader := some false } none encodedSlashReq).1 rfl
  · exact (passHostHeader_controls_host sampleTarget sampleUpstream none
      encodedSlashReq).2 (Or.inl rfl)

/-! ### Claim C8: composition order of the director chain -/

/-- C8: the composed director equals the rewrite steps applied in order —
base single-host rewrite, then URL-escaping preservation, then (when the
pass-host-header flag is disabled) the host-header override — each wrapping
step invoking the prior step first; since the override runs last it is
never lost: the forwarded `Host` is the target's whenever it is enabled. -/
theorem director_composition_order (target : URL) (upstream : Upstream)
    (e : Option ErrorHandler) :
    ((newReverseProxy target upstream e).director = fun req =>
      (if passHostHeaderDisabled upstream then upstreamHostHeaderStep target
        else id) (escapeDirectorStep (baseDirector target req))) ∧
    (passHostHeaderDisabled upstream = true → ∀ req : Request,
      ((newReverseProxy target upstream e).director req).host = target.host) := by
  constructor
  · rw [newReverseProxy_director_eq]
    funext req
    cases hph : passHostHeaderDisabled upstream <;> simp [hph]
  · intro hph req
    rw [newReverseProxy_director_eq]
    dsimp only
    rw [if_pos hph]
    rfl

/-- Witness for `director_composition_order` at a concrete disabled-flag
configuration: the override survives the escaping step. -/
theorem director_composition_order_witness :
    ((newReverseProxy sampleTarget { ID := "u1", passHostHeader := some false }
        none).director encodedSlashReq).host = "backend.local" :=
  (director_composition_order sampleTarget
    { ID := "u1", passHostHeader := some false } none).2 (by decide) encodedSlashReq

/-! ### Claim C4: signing happens strictly before forwarding -/

/-- Reading a header through a canonically equal key returns the set value. -/
theorem headerGet_headerSet_canon (h : Header) (k k' v : String)
    (he : canonicalMIMEHeaderKey k' = canonicalMIMEHeaderKey k) :
    headerGet (headerSet h k v) k' = v := by
  simp [headerGet, headerSet, List.lookup, he]

/-- C4: when a signature context is configured, the signature is computed
and attached (as the `GAP-Signature` header of the forwarded request)
strictly before the request is handed to either forwarding handler (the
forward event is last, all earlier events are non-forward, and `signed`
is among them); when none is configured, no event signs and the forwarded
request's headers are exactly the client's. -/
theorem signing_before_forwarding (h : httpUpstreamProxy) (rw : ResponseWriter)
    (req : Request) (r : ServeResult) (s : RequestScope)
    (hscope : req.scope = some s) (hok : h.ServeHTTP rw req = .ok r) :
    (∀ a, h.auth = some a →
      (∃ pre fwd, r.events = pre ++ [fwd] ∧ fwd.isForward = true ∧
        (∀ e ∈ pre, e.isForward = false) ∧ Event.signed ∈ pre) ∧
      headerGet r.finalReq.header SignatureHeader =
        requestSignature a { req with
          scope := some { upstream := h.upstream }
          header := headerSet req.header "GAP-Auth"
            (headerGet rw.header "GAP-Auth") }) ∧
    (h.auth = none →
      Event.signed ∉ r.events ∧ r.finalReq.header = req.header) := by
  rw [ServeHTTP_ok h rw req s hscope] at hok
  cases hok
  constructor
  · intro a hauth
    rw [hauth]
    constructor
    · refine ⟨[Event.setScope h.upstream,
        Event.setGapAuth (headerGet rw.header "GAP-Auth"), Event.signed],
        if wsRouteCond h req then Event.forwardWS else Event.forwardPlain,
        rfl, ?_, ?_, ?_⟩
      · cases wsRouteCond h req <;> rfl
      · intro e he
        simp only [List.mem_cons, List.not_mem_nil, or_false] at he
        rcases he with rfl | rfl | rfl <;> rfl
      · simp
    · exact headerGet_headerSet_eq _ _ _
  · intro hauth
    rw [hauth]
    constructor
    · intro hmem
      simp only [List.cons_append, List.nil_append, List.mem_cons,
        List.not_mem_nil, or_false] at hmem
      rcases hmem with hmem | hmem
      · exact absurd hmem (by simp)
      · cases hC : wsRouteCond h req <;> (rw [hC] at hmem; simp at hmem)
    · rfl

/-- A request with a scope and no special headers. -/
def bareReq : Request := { requestURI := "/", scope := some {} }

/-- The sample dispatcher with signing configured. -/
def signingProxy : httpUpstreamProxy :=
  newHTTPUpstreamProxy sampleUpstream sampleTarget
    (some { hash := 5, key := "secret" }) none

/-- Witness for `signing_before_forwarding`: with signing configured on a
concrete dispatcher, the trace signs before the single final forward
event and the forwarded request carries the computed signature header. -/
theorem signing_before_forwarding_witness :
    ∃ r, signingProxy.ServeHTTP {} bareReq = .ok r ∧
      ((∃ pre fwd, r.events = pre ++ [fwd] ∧ fwd.isForward = true ∧
        (∀ e ∈ pre, e.isForward = false) ∧ Event.signed ∈ pre) ∧
       headerGet r.finalReq.header SignatureHeader =
        requestSignature { hash := 5, key := "secret" } { bareReq with
          scope := some { upstream := "u1" }
          header := headerSet bareReq.header "GAP-Auth"
            (headerGet ({} : ResponseWriter).header "GAP-Auth") }) :=
  ⟨_, ServeHTTP_ok signingProxy {} bareReq {} rfl,
    (signing_before_forwarding signingProxy {} bareReq _ {} rfl
      (ServeHTTP_ok signingProxy {} bareReq {} rfl)).1 _ rfl⟩

/-! ### Claim C7: missing request scope is fatal; otherwise it is stamped -/

/-- C7: dispatching a request with no `RequestScope` panics (modelled as
`Except.error` carrying the Go nil-dereference message) rather than
recovering; with a scope present, the scope's upstream field is set to the
dispatcher's configured upstream identifier as the first event, before any
forward event. -/
theorem scope_fatal_or_stamped (h : httpUpstreamProxy) (rw : ResponseWriter)
    (req : Request) :
    (req.scope = none → h.ServeHTTP rw req =
      .error "runtime error: invalid memory address or nil pointer dereference") ∧
    (∀ s, req.scope = some s → ∃ r, h.ServeHTTP rw req = .ok r ∧
      r.finalReq.scope = some { upstream := h.upstream } ∧
      r.events.head? = some (Event.setScope h.upstream) ∧
      (∀ i, (r.events.get? i = some Event.forwardWS ∨
        r.events.get? i = some Event.forwardPlain) → 0 < i)) := by
  constructor
  · intro hnone
    unfold httpUpstreamProxy.ServeHTTP
    rw [hnone]
  · intro s hscope
    refine ⟨_, ServeHTTP_ok h rw req s hscope, ?_, ?_, ?_⟩
    · cases hauth : h.auth <;> rfl
    · cases hauth : h.auth <;> rfl
    · intro i hi
      cases i with
      | zero =>
        have h0 : ((match h.auth with
            | some _ =>
              [Event.setScope h.upstream,
               Event.setGapAuth (headerGet rw.header "GAP-Auth"), Event.signed]
            | none => [Event.setScope h.upstream]) ++
            [if wsRouteCond h req then Event.forwardWS
              else Event.forwardPlain]).get? 0 =
            some (Event.setScope h.upstream) := by
          cases h.auth <;> rfl
        rw [h0] at hi
        rcases hi with hi | hi <;> exact absurd hi (by simp)
      | succ n => exact Nat.succ_pos n

/-- A scopeless request. -/
def scopelessReq : Request := { requestURI := "/" }

/-- Witness for `scope_fatal_or_stamped`: the scopeless request panics,
and the scoped request is stamped with the dispatcher's identifier first. -/
theorem scope_fatal_or_stamped_witness :
    sampleProxy.ServeHTTP {} scopelessReq =
      .error "runtime error: invalid memory address or nil pointer dereference" ∧
    (∃ r, sampleProxy.ServeHTTP {} bareReq = .ok r ∧
      r.finalReq.scope = some { upstream := "u1" } ∧
      r.events.head? = some (Event.setScope "u1") ∧
      (∀ i, (r.events.get? i = some Event.forwardWS ∨
        r.events.get? i = some Event.forwardPlain) → 0 < i)) :=
  ⟨(scope_fatal_or_stamped sampleProxy {} scopelessReq).1 rfl,
    (scope_fatal_or_stamped sampleProxy {} bareReq).2 {} rfl⟩

/-! ### Claim C9: the proxy-websockets flag -/

/-- C9: the WebSocket handler is constructed exactly when the
`ProxyWebSockets` flag is unset or true; with the flag explicitly false,
every request — whatever its `Connection`/`Upgrade` headers — is routed to
the Plain Proxy. -/
theorem proxyWebSockets_flag (upstream : Upstream) (u : URL)
    (sigData : Option SignatureData) (e : Option ErrorHandler) :
    ((newHTTPUpstreamProxy upstream u sigData e).wsHandler.isSome = true ↔
      (upstream.proxyWebSockets = none ∨ upstream.proxyWebSockets = some true)) ∧
    (upstream.proxyWebSockets = some false →
      ∀ (rw : ResponseWriter) (req : Request) (r : ServeResult) (s : RequestScope),
        req.scope = some s →
        (newHTTPUpstreamProxy upstream u sigData e).ServeHTTP rw req = .ok r →
        r.route = Route.plain) := by
  have hws : (newHTTPUpstreamProxy upstream u sigData e).wsHandler =
      (if upstream.proxyWebSockets = none ∨ upstream.proxyWebSockets = some true then
        some (newWebSocketReverseProxy { u with path := "" }
          upstream.insecureSkipTLSVerify)
      else none) := by
    unfold newHTTPUpstreamProxy
    dsimp only
    by_cases hc : upstream.proxyWebSockets = none ∨ upstream.proxyWebSockets = some true
    · rw [if_pos hc, if_pos (by simpa using hc)]
    · rw [if_neg hc, if_neg (by simpa using hc)]
  constructor
  · rw [hws]
    by_cases hc : upstream.proxyWebSockets = none ∨ upstream.proxyWebSockets = some true
    · rw [if_pos hc]
      simpa using hc
    · rw [if_neg hc]
      simpa using hc
  · intro hfalse rw' req r s hscope hok
    rw [ServeHTTP_ok _ rw' req s hscope] at hok
    cases hok
    have hnone : (newHTTPUpstreamProxy upstream u sigData e).wsHandler = none := by
      rw [hws, if_neg]
      rintro (hc | hc) <;> rw [hfalse] at hc <;> exact absurd hc (by simp)
    have hcond : wsRouteCond (newHTTPUpstreamProxy upstream u sigData e) req = false := by
      unfold wsRouteCond
      rw [hnone]
      rfl
    dsimp only
    rw [hcond]
    rfl

/-- Witness for `proxyWebSockets_flag`: with `ProxyWebSockets = false`, no
WebSocket handler exists and even an upgrade request goes to the Plain
Proxy. -/
theorem proxyWebSockets_flag_witness :
    ((newHTTPUpstreamProxy { ID := "u1", proxyWebSockets := some false }
        sampleTarget none none).wsHandler.isSome = true ↔
      (({ ID := "u1", proxyWebSockets := some false } : Upstream).proxyWebSockets
          = none ∨
        ({ ID := "u1", proxyWebSockets := some false } : Upstream).proxyWebSockets
          = some true)) ∧
    (∃ r, (newHTTPUpstreamProxy { ID := "u1", proxyWebSockets := some false }
        sampleTarget none none).ServeHTTP {} plainUpgradeReq = .ok r ∧
      r.route = Route.plain) :=
  ⟨(proxyWebSockets_flag { ID := "u1", proxyWebSockets := some false }
      sampleTarget none none).1,
    ⟨_, ServeHTTP_ok _ {} plainUpgradeReq {} rfl,
      (proxyWebSockets_flag { ID := "u1", proxyWebSockets := some false }
        sampleTarget none none).2 rfl {} plainUpgradeReq _ {} rfl
        (ServeHTTP_ok _ {} plainUpgradeReq {} rfl)⟩⟩

/-! ### Claim C10: the signed Gap-Auth value comes from the response side -/

/-- C10: with signing configured, the dispatcher overwrites the outbound
`Gap-Auth` header with the response writer's current `Gap-Auth` value
(empty when unset) before computing the signature: the forwarded request's
`Gap-Auth` equals the response-side value, the outcome is invariant under
any client-supplied `Gap-Auth`, and the attached signature is computed
over the request carrying the response-side value. -/
theorem gapAuth_from_response_side (h : httpUpstreamProxy) (rw : ResponseWriter)
    (req : Request) (r : ServeResult) (a : HmacAuth) (s : RequestScope)
    (hscope : req.scope = some s) (hauth : h.auth = some a)
    (hok : h.ServeHTTP rw req = .ok r) :
    headerGet r.finalReq.header "Gap-Auth" = headerGet rw.header "Gap-Auth" ∧
    (∀ v, h.ServeHTTP rw { req with header := headerSet req.header "GAP-Auth" v } =
      h.ServeHTTP rw req) ∧
    headerGet r.finalReq.header SignatureHeader =
      requestSignature a { req with
        scope := some { upstream := h.upstream }
        header := headerSet req.header "GAP-Auth"
          (headerGet rw.header "GAP-Auth") } := by
  rw [ServeHTTP_ok h rw req s hscope] at hok
  cases hok
  refine ⟨?_, ?_, ?_⟩
  · rw [hauth]
    dsimp only
    rw [headerGet_signRequest a _ _ (by decide)]
    dsimp only
    exact headerGet_headerSet_canon _ _ _ _ (by decide)
  · intro v
    rw [ServeHTTP_ok h rw req s hscope,
      ServeHTTP_ok h rw { req with header := headerSet req.header "GAP-Auth" v }
        s hscope]
    have hcond : wsRouteCond h { req with header := headerSet req.header "GAP-Auth" v } =
        wsRouteCond h req := by
      unfold wsRouteCond
      dsimp only
      rw [headerGet_setGap_Connection, headerGet_setGap_Upgrade]
    rw [hcond, hauth]
    dsimp only
    rw [headerSet_headerSet]
  · rw [hauth]
    dsimp only
    exact headerGet_headerSet_eq _ _ _

/-- A client request that tries to smuggle its own `Gap-Auth`. -/
def smuggledGapAuthReq : Request :=
  { requestURI := "/", header := [("Gap-Auth", "evil")], scope := some {} }

/-- A response writer carrying the authenticated `Gap-Auth: alice`. -/
def gapAuthRW : ResponseWriter := { header := [("Gap-Auth", "alice")] }

/-- Witness for `gapAuth_from_response_side`: the smuggled client value is
replaced by the response-side `alice` and the signature covers `alice`. -/
theorem gapAuth_from_response_side_witness :
    ∃ r, signingProxy.ServeHTTP gapAuthRW smuggledGapAuthReq = .ok r ∧
      (headerGet r.finalReq.header "Gap-Auth" =
        headerGet gapAuthRW.header "Gap-Auth" ∧
      (∀ v, signingProxy.ServeHTTP gapAuthRW
          { smuggledGapAuthReq with
            header := headerSet smuggledGapAuthReq.header "GAP-Auth" v } =
        signingProxy.ServeHTTP gapAuthRW smuggledGapAuthReq) ∧
      headerGet r.finalReq.header SignatureHeader =
        requestSignature { hash := 5, key := "secret" } { smuggledGapAuthReq with
          scope := some { upstream := "u1" }
          header := headerSet smuggledGapAuthReq.header "GAP-Auth"
            (headerGet gapAuthRW.header "Gap-Auth") }) :=
  ⟨_, ServeHTTP_ok signingProxy gapAuthRW smuggledGapAuthReq {} rfl,
    gapAuth_from_response_side signingProxy gapAuthRW smuggledGapAuthReq _
      { hash := 5, key := "secret" } {} rfl rfl
      (ServeHTTP_ok signingProxy gapAuthRW smuggledGapAuthReq {} rfl)⟩

/-! ### Claim C5: transport replacement under insecure-skip-TLS-verify -/

/-- Shared characterisation of the transport chosen by `newReverseProxy`. -/
theorem newReverseProxy_transport (target : URL) (upstream : Upstream)
    (e : Option ErrorHandler) :
    (newReverseProxy target upstream e).transport =
      (if upstream.insecureSkipTLSVerify then some skipVerifyTransport
        else some pooledTransport) := by
  unfold newReverseProxy setProxyDirector setProxyUpstreamHostHeader
    NewSingleHostReverseProxy
  cases e <;> cases hski : upstream.insecureSkipTLSVerify <;>
    cases hph : passHostHeaderDisabled upstream <;>
    simp [hski, hph]

/-- Shared characterisation of the error handler kept by `newReverseProxy`. -/
theorem newReverseProxy_errorHandler (target : URL) (upstream : Upstream)
    (e : Option ErrorHandler) :
    (newReverseProxy target upstream e).errorHandler = e := by
  unfold newReverseProxy setProxyDirector setProxyUpstreamHostHeader
    NewSingleHostReverseProxy
  cases e <;> cases hski : upstream.insecureSkipTLSVerify <;>
    cases hph : passHostHeaderDisabled upstream <;>
    simp [hski, hph]

/-- C5: with insecure-skip-TLS-verify set, the Plain Proxy's transport is
entirely replaced by one whose only customisation is disabled certificate
verification — no environment proxy, no HTTP/2 attempt, zero
idle-connection limit and zero idle/TLS-handshake/expect-continue
timeouts; otherwise the default transport with all those settings is
kept. -/
theorem insecureSkipTLSVerify_replaces_transport (target : URL)
    (upstream : Upstream) (e : Option ErrorHandler) :
    (upstream.insecureSkipTLSVerify = true →
      (newReverseProxy target upstream e).transport = some
        { proxyFromEnvironment := false, dialTimeout := 0, dialKeepAlive := 0,
          forceAttemptHTTP2 := false, maxIdleConns := 0, idleConnTimeout := 0,
          tlsHandshakeTimeout := 0, expectContinueTimeout := 0,
          insecureSkipVerify := true }) ∧
    (upstream.insecureSkipTLSVerify = false →
      (newReverseProxy target upstream e).transport = some
        { proxyFromEnvironment := true, dialTimeout := 0, dialKeepAlive := 0,
          forceAttemptHTTP2 := true, maxIdleConns := 100,
          idleConnTimeout := 90 * 1000000000,
          tlsHandshakeTimeout := 10 * 1000000000,
          expectContinueTimeout := 1 * 1000000000,
          insecureSkipVerify := false }) := by
  rw [newReverseProxy_transport]
  constructor
  · intro hski
    rw [if_pos hski]
    rfl
  · intro hski
    rw [if_neg (by rw [hski]; exact Bool.false_ne_true)]
    rfl

/-- Witness for `insecureSkipTLSVerify_replaces_transport` at concrete
configurations on both sides of the flag. -/
theorem insecureSkipTLSVerify_replaces_transport_witness :
    (newReverseProxy sampleTarget { ID := "u1", insecureSkipTLSVerify := true }
        none).transport = some
      { proxyFromEnvironment := false, dialTimeout := 0, dialKeepAlive := 0,
        forceAttemptHTTP2 := false, maxIdleConns := 0, idleConnTimeout := 0,
        tlsHandshakeTimeout := 0, expectContinueTimeout := 0,
        insecureSkipVerify := true } ∧
    (newReverseProxy sampleTarget sampleUpstream none).transport = some
      { proxyFromEnvironment := true, dialTimeout := 0, dialKeepAlive := 0,
        forceAttemptHTTP2 := true, maxIdleConns := 100,
        idleConnTimeout := 90 * 1000000000,
        tlsHandshakeTimeout := 10 * 1000000000,
        expectContinueTimeout := 1 * 1000000000,
        insecureSkipVerify := false } :=
  ⟨(insecureSkipTLSVerify_replaces_transport sampleTarget
      { ID := "u1", insecureSkipTLSVerify := true } none).1 rfl,
    (insecureSkipTLSVerify_replaces_transport sampleTarget sampleUpstream
      none).2 rfl⟩

/-! ### Claim C6: connection-failure handling -/

/-- Modelled from the spec: the injected error-page renderer (the
`ProxyErrorHandler` implementation lives outside the excerpt) "render[s] a
user-visible failure response" — a 502 with a non-empty error page. -/
def specErrorPageHandler : ErrorHandler :=
  fun rw _ _ => { rw with status := some 502, body := "Bad Gateway" }

/-- C6, counterexample: with no error handler configured, a connection
failure produces the stdlib default — the handler path runs once and
writes a `502` status, but the response body is *empty*, contradicting
the claim's "a default non-empty failure response … never an empty
body" (the code's own comment calls this default "a empty response"). -/
theorem default_failure_response_empty_body :
    ((newReverseProxy sampleTarget sampleUpstream none).serveConnFailure
        {} bareReq "dial tcp: connection refused").1.body = "" ∧
    ((newReverseProxy sampleTarget sampleUpstream none).serveConnFailure
        {} bareReq "dial tcp: connection refused").1.status = some 502 ∧
    ((newReverseProxy sampleTarget sampleUpstream none).serveConnFailure
        {} bareReq "dial tcp: connection refused").2 = 1 := by
  refine ⟨rfl, rfl, rfl⟩

/-- C6, amended: on a connection-level failure the configured error
handler is invoked exactly once and its output is the response (non-empty
when the handler renders a page, as the spec-modelled renderer does); with
no handler configured the stdlib default runs once and writes only a
`502 Bad Gateway` status with an empty body — the failure is surfaced via
the status code, never silently, but the default body is empty. -/
theorem errorHandler_once (target : URL) (upstream : Upstream)
    (f : ErrorHandler) (rw : ResponseWriter) (req : Request) (err : String) :
    ((newReverseProxy target upstream (some f)).serveConnFailure rw req err =
      (f rw req err, 1)) ∧
    ((newReverseProxy target upstream none).serveConnFailure rw req err =
      ({ rw with status := some 502 }, 1)) ∧
    ((newReverseProxy target upstream (some specErrorPageHandler)).serveConnFailure
        rw req err).1.body = "Bad Gateway" := by
  refine ⟨?_, ?_, ?_⟩
  · unfold ReverseProxy.serveConnFailure ReverseProxy.getErrorHandler
    rw [newReverseProxy_errorHandler]
    rfl
  · unfold ReverseProxy.serveConnFailure ReverseProxy.getErrorHandler
    rw [newReverseProxy_errorHandler]
    rfl
  · unfold ReverseProxy.serveConnFailure ReverseProxy.getErrorHandler
    rw [newReverseProxy_errorHandler]
    rfl

end Oauth2Proxy
